import Mathlib

/-!
Verification of the libStorage driver contract (`driver/driver.go`) and the
S3FS platform constant (`drivers/storage/s3fs/utils/utils_unix.go`).

The repository's core is a Go interface: its content is the shape of each
operation's signature (names, parameter types, result types).  We embed the
signatures as data — a `GoType` grammar and a `GoMethod` record per
operation — transcribed from `driver.go`.  Behavioral claims about
`GetVolume`, whose implementation lives in the backends outside this
repository, are settled against a reference model built from the spec's
operation table.
-/

namespace LibStorage

/-- The Go types appearing in the driver contract's signatures. -/
inductive GoType where
  /-- Go `string`. -/
  | goString : GoType
  /-- Go `int64`. -/
  | goInt64 : GoType
  /-- Go `error`. -/
  | goError : GoType
  /-- `context.Context` (golang.org/x/net/context). -/
  | goCtx : GoType
  /-- A pointer `*t`. -/
  | ptr : GoType → GoType
  /-- A slice `[]t`. -/
  | slice : GoType → GoType
  /-- A named type such as `model.Volume`. -/
  | named : String → GoType
  deriving DecidableEq, Repr

/-- A method signature: name, named parameters, result types. -/
structure GoMethod where
  name : String
  params : List (String × GoType)
  results : List GoType
  deriving DecidableEq, Repr

/-- Does the method take a `context.Context` as its first parameter? -/
def GoMethod.ctxFirst (m : GoMethod) : Bool :=
  match m.params with
  | (_, GoType.goCtx) :: _ => true
  | _ => false

/-- Does the method take a `context.Context` anywhere? -/
def GoMethod.takesCtx (m : GoMethod) : Bool :=
  m.params.any (fun p => p.2 == GoType.goCtx)

/-- Does a type mention the named type `s` (under pointers and slices)? -/
def GoType.mentions (t : GoType) (s : String) : Bool :=
  match t with
  | GoType.ptr u => u.mentions s
  | GoType.slice u => u.mentions s
  | GoType.named n => n == s
  | _ => false

namespace DriverSig

/-- `Name() string` — driver.go. -/
def Name : GoMethod := ⟨"Name", [], [GoType.goString]⟩

/-- `Init() error` — driver.go. -/
def Init : GoMethod := ⟨"Init", [], [GoType.goError]⟩

/-- `GetVolumeMapping(ctx) ([]*model.BlockDevice, error)` — driver.go. -/
def GetVolumeMapping : GoMethod :=
  ⟨"GetVolumeMapping", [("ctx", GoType.goCtx)],
   [GoType.slice (GoType.ptr (GoType.named "model.BlockDevice")), GoType.goError]⟩

/-- `GetInstance(ctx) (*model.Instance, error)` — driver.go. -/
def GetInstance : GoMethod :=
  ⟨"GetInstance", [("ctx", GoType.goCtx)],
   [GoType.ptr (GoType.named "model.Instance"), GoType.goError]⟩

/-- `GetVolume(ctx, volumeID, volumeName string) ([]*model.Volume, error)` — driver.go. -/
def GetVolume : GoMethod :=
  ⟨"GetVolume",
   [("ctx", GoType.goCtx), ("volumeID", GoType.goString), ("volumeName", GoType.goString)],
   [GoType.slice (GoType.ptr (GoType.named "model.Volume")), GoType.goError]⟩

/-- `GetVolumeAttach(ctx, volumeID string) ([]*model.VolumeAttachment, error)` — driver.go. -/
def GetVolumeAttach : GoMethod :=
  ⟨"GetVolumeAttach", [("ctx", GoType.goCtx), ("volumeID", GoType.goString)],
   [GoType.slice (GoType.ptr (GoType.named "model.VolumeAttachment")), GoType.goError]⟩

/-- `CreateSnapshot(ctx, snapshotName, volumeID, description string) ([]*model.Snapshot, error)` — driver.go. -/
def CreateSnapshot : GoMethod :=
  ⟨"CreateSnapshot",
   [("ctx", GoType.goCtx), ("snapshotName", GoType.goString),
    ("volumeID", GoType.goString), ("description", GoType.goString)],
   [GoType.slice (GoType.ptr (GoType.named "model.Snapshot")), GoType.goError]⟩

/-- `GetSnapshot(ctx, volumeID, snapshotID, snapshotName string) ([]*model.Snapshot, error)` — driver.go. -/
def GetSnapshot : GoMethod :=
  ⟨"GetSnapshot",
   [("ctx", GoType.goCtx), ("volumeID", GoType.goString),
    ("snapshotID", GoType.goString), ("snapshotName", GoType.goString)],
   [GoType.slice (GoType.ptr (GoType.named "model.Snapshot")), GoType.goError]⟩

/-- `RemoveSnapshot(ctx, snapshotID string) error` — driver.go. -/
def RemoveSnapshot : GoMethod :=
  ⟨"RemoveSnapshot", [("ctx", GoType.goCtx), ("snapshotID", GoType.goString)],
   [GoType.goError]⟩

/-- `CreateVolume(ctx, volumeName, volumeID, snapshotID, volumeType string, IOPS, size int64, availabilityZone string) (*model.Volume, error)` — driver.go. -/
def CreateVolume : GoMethod :=
  ⟨"CreateVolume",
   [("ctx", GoType.goCtx), ("volumeName", GoType.goString),
    ("volumeID", GoType.goString), ("snapshotID", GoType.goString),
    ("volumeType", GoType.goString), ("IOPS", GoType.goInt64),
    ("size", GoType.goInt64), ("availabilityZone", GoType.goString)],
   [GoType.ptr (GoType.named "model.Volume"), GoType.goError]⟩

/-- `RemoveVolume(ctx, volumeID string) error` — driver.go. -/
def RemoveVolume : GoMethod :=
  ⟨"RemoveVolume", [("ctx", GoType.goCtx), ("volumeID", GoType.goString)],
   [GoType.goError]⟩

/-- `GetDeviceNextAvailable() (string, error)` — driver.go. -/
def GetDeviceNextAvailable : GoMethod :=
  ⟨"GetDeviceNextAvailable", [], [GoType.goString, GoType.goError]⟩

/-- `AttachVolume(ctx, nextDeviceName, volumeID string) ([]*model.VolumeAttachment, error)` — driver.go. -/
def AttachVolume : GoMethod :=
  ⟨"AttachVolume",
   [("ctx", GoType.goCtx), ("nextDeviceName", GoType.goString),
    ("volumeID", GoType.goString)],
   [GoType.slice (GoType.ptr (GoType.named "model.VolumeAttachment")), GoType.goError]⟩

/-- `DetachVolume(ctx, volumeID string) error` — driver.go. -/
def DetachVolume : GoMethod :=
  ⟨"DetachVolume", [("ctx", GoType.goCtx), ("volumeID", GoType.goString)],
   [GoType.goError]⟩

/-- `CopySnapshot(ctx, volumeID, snapshotID, snapshotName, destinationSnapshotName, destinationRegion string) (*model.Snapshot, error)` — driver.go. -/
def CopySnapshot : GoMethod :=
  ⟨"CopySnapshot",
   [("ctx", GoType.goCtx), ("volumeID", GoType.goString),
    ("snapshotID", GoType.goString), ("snapshotName", GoType.goString),
    ("destinationSnapshotName", GoType.goString),
    ("destinationRegion", GoType.goString)],
   [GoType.ptr (GoType.named "model.Snapshot"), GoType.goError]⟩

/-- `GetClientToolName(ctx) (string, error)` — driver.go. -/
def GetClientToolName : GoMethod :=
  ⟨"GetClientToolName", [("ctx", GoType.goCtx)], [GoType.goString, GoType.goError]⟩

/-- `GetClientTool(ctx) ([]byte, error)` — driver.go. -/
def GetClientTool : GoMethod :=
  ⟨"GetClientTool", [("ctx", GoType.goCtx)],
   [GoType.slice (GoType.named "byte"), GoType.goError]⟩

end DriverSig

/-- The seventeen methods of the `Driver` interface, in source order. -/
def driverMethods : List GoMethod :=
  [DriverSig.Name, DriverSig.Init, DriverSig.GetVolumeMapping,
   DriverSig.GetInstance, DriverSig.GetVolume, DriverSig.GetVolumeAttach,
   DriverSig.CreateSnapshot, DriverSig.GetSnapshot, DriverSig.RemoveSnapshot,
   DriverSig.CreateVolume, DriverSig.RemoveVolume,
   DriverSig.GetDeviceNextAvailable, DriverSig.AttachVolume,
   DriverSig.DetachVolume, DriverSig.CopySnapshot,
   DriverSig.GetClientToolName, DriverSig.GetClientTool]

/-- `type NewDriver func(c *gofig.Config) Driver` — driver.go, embedded as the
signature of the constructor function type. -/
def NewDriver : GoMethod :=
  ⟨"NewDriver", [("c", GoType.ptr (GoType.named "gofig.Config"))],
   [GoType.named "Driver"]⟩

/-- Build platforms relevant to the `+build !windows` constraint on
`utils_unix.go`. -/
inductive Platform where
  | linux : Platform
  | darwin : Platform
  | freebsd : Platform
  | solaris : Platform
  | windows : Platform
  deriving DecidableEq, Repr, Fintype

/-- `types.NextDeviceInfo`: device-prefix, naming pattern, and the flag that
disables device-naming resolution.  Go field names: `Prefix`, `Pattern`,
`Ignore`. -/
structure NextDeviceInfo where
  pfx : String
  pattern : String
  ignore : Bool
  deriving DecidableEq, Repr

/-- The S3FS `NextDeviceInfo` value of `utils_unix.go`:
`Prefix: "", Pattern: "", Ignore: true`. -/
def s3fsNextDeviceInfo : NextDeviceInfo :=
  ⟨"", "", true⟩

/-- The S3FS `NextDeviceInfo` available on a given platform: `utils_unix.go`
carries the build constraint `+build !windows`, so its value is compiled in
on every platform other than Windows; the repository contains no Windows
variant. -/
def s3fsNextDeviceInfoOn (p : Platform) : Option NextDeviceInfo :=
  match p with
  | Platform.windows => none
  | _ => some s3fsNextDeviceInfo

/-- Modelled from the spec: which operations of the contract perform backend
I/O.  The repository holds only the interface, so the classification follows
the spec's operation table: `Name` returns a static identifier, `Init`
validates locally-supplied configuration, and `GetDeviceNextAvailable`
computes a device path from the local `NextDeviceInfo`; every other operation
contacts the backing storage provider. -/
def backendIOOp (s : String) : Bool :=
  !(s == "Name" || s == "Init" || s == "GetDeviceNextAvailable")

/-- A volume of the reference backend model, carrying the two identity axes
the contract filters on: the backend-assigned `volumeID` and the
human-assigned `volumeName`. -/
structure Volume where
  volumeID : String
  volumeName : String
  deriving DecidableEq, Repr

/-- A failure value of a backend call (the Go `error` result). -/
inductive DriverErr where
  | backendErr : String → DriverErr
  deriving DecidableEq, Repr

/-- Modelled from the spec: the behavior of `GetVolume`, whose implementation
lives in the backends outside this repository (src/ holds only the interface
declaration).  Per the spec's operation table, the volumes visible to the
instance are filtered by `volumeID` and/or `volumeName`, an empty string
leaving that axis unconstrained (both empty means all volumes visible to the
instance), and an empty result is not an error. -/
def getVolume (visible : List Volume) (volumeID volumeName : String) :
    Except DriverErr (List Volume) :=
  Except.ok (visible.filter (fun v =>
    (volumeID == "" || v.volumeID == volumeID) &&
    (volumeName == "" || v.volumeName == volumeName)))

deriving instance DecidableEq for Except

/-- Is the type a Go slice? -/
def GoType.isSlice : GoType → Bool
  | GoType.slice _ => true
  | _ => false

/-- C1: the contract's `GetVolume` returns a sequence of volumes — its result
types are a slice of volume pointers plus `error`, and a bare volume pointer
is not among them — and in the reference model, with both identity inputs
empty, it returns all volumes visible to the instance. -/
theorem getVolume_sequence_and_all_volumes :
    (driverMethods.contains DriverSig.GetVolume = true ∧
      DriverSig.GetVolume.results =
        [GoType.slice (GoType.ptr (GoType.named "model.Volume")), GoType.goError] ∧
      DriverSig.GetVolume.results.contains
        (GoType.ptr (GoType.named "model.Volume")) = false) ∧
    ∀ visible : List Volume, getVolume visible "" "" = Except.ok visible := by
  refine ⟨by decide, ?_⟩
  intro visible
  unfold getVolume
  congr 1
  rw [List.filter_eq_self]
  intro a _
  simp

/-- C2: every operation of the contract that performs backend I/O takes a
cancelable, deadline-bearing request context as its first parameter and has a
failure result through which a cancellation failure can be returned. -/
theorem backendIOOps_take_ctx :
    ∀ m ∈ driverMethods, backendIOOp m.name = true →
      m.ctxFirst = true ∧ m.results.contains GoType.goError = true := by
  decide

/-- Witness for C2 at the concrete method `GetVolume`. -/
theorem backendIOOps_take_ctx_witness :
    DriverSig.GetVolume.ctxFirst = true ∧
      DriverSig.GetVolume.results.contains GoType.goError = true :=
  backendIOOps_take_ctx DriverSig.GetVolume (by decide) (by decide)

/-- C3: `CreateVolume` takes volumeName, volumeID, snapshotID, volumeType,
IOPS, size and availabilityZone, and returns exactly one volume: a volume
pointer plus `error`, with no slice among its results. -/
theorem createVolume_singleton_result :
    driverMethods.contains DriverSig.CreateVolume = true ∧
    DriverSig.CreateVolume.params.map Prod.fst =
      ["ctx", "volumeName", "volumeID", "snapshotID", "volumeType",
       "IOPS", "size", "availabilityZone"] ∧
    DriverSig.CreateVolume.results =
      [GoType.ptr (GoType.named "model.Volume"), GoType.goError] ∧
    DriverSig.CreateVolume.results.all (fun t => !t.isSlice) = true := by
  decide

/-- C4: `NextDeviceInfo` is read-only platform configuration, not request
data: no operation of the contract takes or returns a `NextDeviceInfo`,
`GetDeviceNextAvailable` takes no request parameters at all, and the S3FS
value is one and the same constant on every platform that compiles it. -/
theorem nextDeviceInfo_readonly_config :
    driverMethods.all (fun m =>
        m.params.all (fun p => !(p.2.mentions "types.NextDeviceInfo")) &&
        m.results.all (fun t => !(t.mentions "types.NextDeviceInfo"))) = true ∧
    DriverSig.GetDeviceNextAvailable.params = [] ∧
    ∀ p q : Platform, p ≠ Platform.windows → q ≠ Platform.windows →
      s3fsNextDeviceInfoOn p = s3fsNextDeviceInfoOn q := by
  refine ⟨by decide, rfl, ?_⟩
  intro p q hp hq
  cases p <;> cases q <;> simp_all [s3fsNextDeviceInfoOn]

/-- Witness for C4 at the concrete platforms Linux and Darwin. -/
theorem nextDeviceInfo_readonly_config_witness :
    s3fsNextDeviceInfoOn Platform.linux = s3fsNextDeviceInfoOn Platform.darwin :=
  nextDeviceInfo_readonly_config.2.2 Platform.linux Platform.darwin
    (by decide) (by decide)

/-- C5: `GetClientToolName` returns a file-name string and `GetClientTool`
returns the raw byte payload of the artifact: the former's results are
`string` and `error`, the latter's a byte slice and `error`. -/
theorem clientTool_two_call_protocol :
    driverMethods.contains DriverSig.GetClientToolName = true ∧
    DriverSig.GetClientToolName.results = [GoType.goString, GoType.goError] ∧
    driverMethods.contains DriverSig.GetClientTool = true ∧
    DriverSig.GetClientTool.results =
      [GoType.slice (GoType.named "byte"), GoType.goError] := by
  decide

/-- C6: `RemoveSnapshot` and `RemoveVolume` return only a success-or-failure
signal: each takes the context plus one identifier and has `error` as its
single result, with no entity payload. -/
theorem remove_ops_no_payload :
    driverMethods.contains DriverSig.RemoveSnapshot = true ∧
    DriverSig.RemoveSnapshot.params.map Prod.fst = ["ctx", "snapshotID"] ∧
    DriverSig.RemoveSnapshot.results = [GoType.goError] ∧
    driverMethods.contains DriverSig.RemoveVolume = true ∧
    DriverSig.RemoveVolume.params.map Prod.fst = ["ctx", "volumeID"] ∧
    DriverSig.RemoveVolume.results = [GoType.goError] := by
  decide

/-- C7 counterexample: the empty string is not the volumeID of any volume of
the backend `[⟨"vol-1", "data"⟩]`, yet `getVolume` called with it returns the
whole list and not the empty sequence, because an empty volumeID means
unconstrained on that axis. -/
theorem getVolume_empty_id_counterexample :
    ([Volume.mk "vol-1" "data"].all (fun v => !(v.volumeID == ""))) = true ∧
    getVolume [Volume.mk "vol-1" "data"] "" "" =
      Except.ok [Volume.mk "vol-1" "data"] ∧
    decide (getVolume [Volume.mk "vol-1" "data"] "" "" =
      Except.ok ([] : List Volume)) = false := by
  decide

/-- C7 (amended): for every nonempty volumeID `v` that is not the ID of any
volume visible to the instance, `getVolume v ""` returns the empty sequence
and not a failure value. -/
theorem getVolume_absent_id_empty :
    ∀ (visible : List Volume) (v : String), v ≠ "" →
      (∀ vol ∈ visible, vol.volumeID ≠ v) →
      getVolume visible v "" = Except.ok ([] : List Volume) := by
  intro visible v hv hall
  unfold getVolume
  congr 1
  rw [List.filter_eq_nil_iff]
  intro a ha
  have h1 : (v == "") = false := by simpa using hv
  have h2 : (a.volumeID == v) = false := by simpa using hall a ha
  simp [h1, h2]

/-- Witness for the amended C7 at a concrete backend and absent volumeID. -/
theorem getVolume_absent_id_empty_witness :
    getVolume [Volume.mk "vol-1" "data"] "vol-2" "" =
      Except.ok ([] : List Volume) :=
  getVolume_absent_id_empty [Volume.mk "vol-1" "data"] "vol-2"
    (by decide) (by decide)

/-- C8: on every non-Windows platform, the S3FS `NextDeviceInfo` has an empty
device prefix, an empty naming pattern, and the ignore flag set to true. -/
theorem s3fs_unix_device_naming_disabled :
    ∀ p : Platform, p ≠ Platform.windows →
      s3fsNextDeviceInfoOn p = some ⟨"", "", true⟩ := by
  decide

/-- Witness for C8 at the concrete platform Linux. -/
theorem s3fs_unix_device_naming_disabled_witness :
    s3fsNextDeviceInfoOn Platform.linux = some ⟨"", "", true⟩ :=
  s3fs_unix_device_naming_disabled Platform.linux (by decide)

/-- C9: `Name`, `Init` and `GetDeviceNextAvailable` are exactly the operations
of the contract that take no request context, and every other operation takes
one as its first parameter. -/
theorem ctxless_ops_exactly_three :
    (driverMethods.filter (fun m => !m.takesCtx)).map GoMethod.name =
      ["Name", "Init", "GetDeviceNextAvailable"] ∧
    (driverMethods.filter (fun m => m.takesCtx)).all GoMethod.ctxFirst = true := by
  decide

/-- C10: the `NewDriver` constructor type returns a `Driver` and no error
value, while `Init` returns an error, so construction cannot signal failure
and initialization failures surface through `Init`. -/
theorem newDriver_cannot_fail :
    NewDriver.results = [GoType.named "Driver"] ∧
    NewDriver.results.contains GoType.goError = false ∧
    DriverSig.Init.results = [GoType.goError] := by
  decide

end LibStorage
